import Mathlib

/-!
Verification of the owners-schedule calendar frontend.

Embedding conventions.

Instants are integers: milliseconds since the Unix epoch (1970-01-01T00:00Z,
a Thursday). An IANA timezone is modelled by its offset function: for an
instant t, offset t is the UTC offset in milliseconds in force at t, so the
local wall clock reading at t is t + offset t (also in milliseconds, on the
same epoch scale). ISO datetime strings produced by the Luxon toISO always
carry an explicit UTC offset, so a string denotes a unique instant; the
embedding therefore works at the instant level and models parse/serialize
as the identity on instants.

The Luxon library (src/frontend/src/hooks/useUndoRedo.ts imports luxon)
performs calendar arithmetic (plus days, startOf week, endOf day) by
recomputing the wall clock fields and then converting the new wall clock
reading back to an instant with its fixOffset routine, seeded with the
offset of the original DateTime. fixOffset is embedded below exactly as in
the Luxon source (fixOffset in datetime.js): guess, re-probe, and a third
branch for wall clock readings inside a DST spring-forward gap.
-/

namespace OwnersSchedule

/-- A timezone, modelled by its UTC offset (milliseconds) as a function of
the instant. A fixed-offset zone is a constant function; a DST zone is a
step function. -/
structure Zone where
  offset : Int → Int

/-- Local wall clock reading (ms on the epoch scale) of instant t in zone z. -/
def wall (z : Zone) (t : Int) : Int := t + z.offset t

/-- The Luxon fixOffset routine (datetime.js): convert a wall clock reading
localTS back to an instant, seeded with an offset guess o. First branch:
the guess is consistent. Second branch: re-probe with the offset found at
the guessed instant. Third branch: the wall reading is inside a
spring-forward gap; Luxon keeps localTS minus the smaller offset. -/
def fixOffset (z : Zone) (localTS : Int) (o : Int) : Int :=
  if z.offset (localTS - o) = o then localTS - o
  else if z.offset (localTS - z.offset (localTS - o)) = z.offset (localTS - o) then
    localTS - z.offset (localTS - o)
  else
    localTS - min (z.offset (localTS - o)) (z.offset (localTS - z.offset (localTS - o)))

def msPerDay : Int := 86400000

def msPerWeek : Int := 604800000

/-- The Luxon plus with a whole number of days (also used for weeks = 7
days): add n days to the wall clock fields, then fixOffset seeded with the
offset of the original DateTime. Time units (the minus 1 millisecond in
endOf) act on the instant directly and are written as plain subtraction. -/
def plusDays (z : Zone) (t : Int) (n : Int) : Int :=
  fixOffset z (wall z t + n * msPerDay) (z.offset t)

/-- Day index of a wall clock reading: day 0 is 1970-01-01 (a Thursday).
Integer division in Lean on Int with a positive literal divisor is floor
division, matching calendar day extraction for all instants. -/
def dayIndex (w : Int) : Int := w / msPerDay

/-- Wall clock reading of the Monday 00:00:00.000 of the week containing
the wall reading w (Luxon weeks start on Monday; day 0 is a Thursday, so
day d is (d + 3) mod 7 days after a Monday). -/
def mondayWall (w : Int) : Int := (dayIndex w - (dayIndex w + 3) % 7) * msPerDay

/-- Wall clock reading of the 00:00:00.000 of the day containing w. -/
def dayStartWall (w : Int) : Int := dayIndex w * msPerDay

/-- Embedding of getWeekStart (useUndoRedo.ts): date.startOf(week). Luxon
startOf sets the wall clock fields to Monday 00:00:00.000 and converts back
with fixOffset seeded with the current offset. -/
def getWeekStart (z : Zone) (t : Int) : Int :=
  fixOffset z (mondayWall (wall z t)) (z.offset t)

/-- Luxon startOf(day): wall clock fields set to 00:00:00.000 of the same
local day, converted back with fixOffset. -/
def startOfDay (z : Zone) (t : Int) : Int :=
  fixOffset z (dayStartWall (wall z t)) (z.offset t)

/-- Embedding of getWeekEnd (useUndoRedo.ts): date.endOf(week). Luxon endOf
is plus one week, startOf week, minus one millisecond. -/
def getWeekEnd (z : Zone) (t : Int) : Int :=
  getWeekStart z (plusDays z t 7) - 1

/-- Luxon endOf(day): plus one day, startOf day, minus one millisecond. -/
def endOfDay (z : Zone) (t : Int) : Int :=
  startOfDay z (plusDays z t 1) - 1

/-- The weekStart/weekEnd pair built by getWeekInfo (useUndoRedo.ts). -/
structure WeekInfoM where
  weekStart : Int
  weekEnd : Int
deriving Repr, DecidableEq

/-- Embedding of getWeekInfo (useUndoRedo.ts): the weekStartISO argument is
parsed (its instant is fixed by the offset carried in the ISO string) and
setZone keeps the instant, so weekStart is the input instant itself; the
weekEnd is weekStart plus 6 days then endOf(day). Note the input is NOT
snapped to the Monday of its week. -/
def getWeekInfo (z : Zone) (weekStartInstant : Int) : WeekInfoM :=
  { weekStart := weekStartInstant
    weekEnd := endOfDay z (plusDays z weekStartInstant 6) }

/-- Direction argument of navigateWeek. -/
inductive Dir
  | prev
  | next
deriving Repr, DecidableEq

/-- Embedding of navigateWeek (useUndoRedo.ts): parse the current week
start ISO string (instant fixed by its embedded offset), add plus or minus
7 calendar days in the caller timezone, serialize. -/
def navigateWeek (z : Zone) (w : Int) (d : Dir) : Int :=
  plusDays z w (match d with | Dir.next => 7 | Dir.prev => -7)

/-- A Luxon DateTime: an instant together with the zone it is displayed
in. setZone and toUTC change only the zone component. -/
structure DateTimeM where
  ts : Int
  zone : Zone

/-- The UTC zone as used by fromISO with the utc zone option. -/
def utcZone : Zone := { offset := fun _ => 0 }

/-- Luxon DateTime.fromISO(s, zone utc) for a UTC ISO string: the denoted
instant, displayed in UTC. -/
def fromISOUtc (s : Int) : DateTimeM := { ts := s, zone := utcZone }

/-- Luxon setZone: same instant, new display zone. -/
def setZone (dt : DateTimeM) (z : Zone) : DateTimeM := { ts := dt.ts, zone := z }

/-- Embedding of utcToLocal (useUndoRedo.ts): fromISO with the utc zone,
then setZone to the display timezone. -/
def utcToLocal (s : Int) (tz : Zone) : DateTimeM := setZone (fromISOUtc s) tz

/-- Embedding of localToUTC (useUndoRedo.ts): toUTC().toISO(); toUTC keeps
the instant and toISO serializes it losslessly. -/
def localToUTC (dt : DateTimeM) : Int := (setZone dt utcZone).ts

/-!
Data model of the frontend (src/frontend/src, types section of
EventModal.tsx). Occurrence timestamps that travel through request payloads
are kept as ISO strings here, since the handlers only copy them around.
-/

/-- The recurrence frequency enum (freq field). -/
inductive Freq
  | NEVER
  | DAILY
  | WORKDAY
  | WEEKLY
  | FORTNIGHTLY
deriving Repr, DecidableEq

/-- The event type enum; the source literal 1st is named First here. -/
inductive EType
  | Meeting
  | First
  | Presentation
  | Event
deriving Repr, DecidableEq

/-- Embedding of the Occurrence record (types section of EventModal.tsx):
occurrence_start_utc is the RESOLVED start; original_occurrence_start_utc
is present (per the source comment: for exceptions, the original occurrence
time) when the occurrence is an exception whose start was moved. -/
structure OccurrenceR where
  series_id : Nat
  occurrence_start_utc : String
  original_occurrence_start_utc : Option String
  duration_minutes : Int
  title : String
  link : String
  notes : String
  location : String
  host : String
  event_type : Option EType
  is_exception : Bool
  frequency : Freq
deriving Repr, DecidableEq

/-- JavaScript truthiness of an optional string value: undefined and the
empty string are falsy, every other string is truthy. -/
def jsTruthy : Option String → Bool
  | none => false
  | some s => !(s == "")

/-- The claim-side notion of the ORIGINAL un-overridden instant of an
occurrence: its recorded original start when it is already an exception
carrying one, otherwise its occurrence_start_utc. Stated from the words of
the claims and of spec section 3, for comparison with the handler code. -/
def originalUnoverriddenInstant (occ : OccurrenceR) : String :=
  match occ.is_exception, occ.original_occurrence_start_utc with
  | true, some o => o
  | _, _ => occ.occurrence_start_utc

/-- Shared shape of the createOccurrenceOverride request body
(CreateOccurrenceOverrideRequest in the types section). Fields a call site
does not send are none. -/
structure OverrideRequest where
  occurrence_start_utc : String
  override_start_utc : String
  override_duration_minutes : Int
  override_title : String
  override_link : String
  override_notes : String
  override_location : Option String
  override_host : Option String
  override_event_type : Option EType
deriving Repr, DecidableEq

/-- Per-form value of the duration field after coercion through the
JavaScript Number function: a numeric value, or NaN for non-numeric text.
The empty string coerces to the number 0 and is covered by the int 0 case.
Fractional inputs are out of scope of the claims and not modelled. -/
inductive JsVal
  | nan
  | int (n : Int)
deriving Repr, DecidableEq

/-- The expression Number(duration) || 30 used by handleSave
(EventModal.tsx) when building duration_minutes: NaN and 0 are falsy and
fall back to 30; every other number, including a negative one, passes
through. -/
def durationOr30 : JsVal → Int
  | JsVal.nan => 30
  | JsVal.int n => if n = 0 then 30 else n

/-- The onBlur handler of the duration input (EventModal.tsx): when the
field is empty, 0, NaN, or below 1, it is reset to 30; otherwise kept. -/
def durationOnBlur : JsVal → JsVal
  | JsVal.nan => JsVal.int 30
  | JsVal.int n => if n < 1 then JsVal.int 30 else JsVal.int n

/-- The form state tracked by the EventModal component (the fields used by
handleSave). -/
structure EventForm where
  title : String
  duration : JsVal
  link : String
  notes : String
  location : String
  frequency : Freq
  eventType : EType
  selectedHost : String
deriving Repr, DecidableEq

/-- The series-creation request built by handleSave in create mode
(EventModal.tsx, seriesData). The expressions link || and notes || and
selectedHost || with an empty-string fallback are the identity on strings
and are embedded as the field itself. -/
structure CreateSeriesReq where
  title : String
  start_utc : String
  duration_minutes : Int
  freq : Freq
  interval : Int
  byweekday : List String
  link : String
  notes : String
  location : String
  host : String
  event_type : EType
deriving Repr, DecidableEq

/-- Embedding of the seriesData object built by handleSave in create mode
(EventModal.tsx). -/
def handleSaveCreateSeries (form : EventForm) (utcStartTime : String) : CreateSeriesReq :=
  { title := form.title
    start_utc := utcStartTime
    duration_minutes := durationOr30 form.duration
    freq := form.frequency
    interval := if form.frequency = Freq.FORTNIGHTLY then 2 else 1
    byweekday := []
    link := form.link
    notes := form.notes
    location := if form.eventType = EType.Event then form.location else ""
    host := form.selectedHost
    event_type := form.eventType }

/-- The occurrence_start_utc key expression shared verbatim by the three
single-occurrence edit sites: is_exception and a truthy
original_occurrence_start_utc select the original field, otherwise the
occurrence_start_utc. -/
def originalOccurrenceTimeExpr (occ : OccurrenceR) : String :=
  if occ.is_exception && jsTruthy occ.original_occurrence_start_utc then
    occ.original_occurrence_start_utc.getD occ.occurrence_start_utc
  else occ.occurrence_start_utc

/-- Embedding of the overrideData object built by handleSave for the edit
this occurrence only path (EventModal.tsx, single update mode). -/
def handleSaveSingleOverride (occ : OccurrenceR) (form : EventForm) (utcStartTime : String) :
    OverrideRequest :=
  { occurrence_start_utc := originalOccurrenceTimeExpr occ
    override_start_utc := utcStartTime
    override_duration_minutes := durationOr30 form.duration
    override_title := form.title
    override_link := form.link
    override_notes := form.notes
    override_location := some (if form.eventType = EType.Event then form.location else "")
    override_host := some form.selectedHost
    override_event_type := none }

/-- Embedding of the overrideData object built by handleEventDrop in the
BigCalendar component (src/unnamed/part_002): the drop recipient computes a
minimum duration of 15 minutes and copies the occurrence fields. -/
def handleEventDropOverride (occ : OccurrenceR) (newStartUTC : String)
    (newDurationMinutes : Int) : OverrideRequest :=
  { occurrence_start_utc := originalOccurrenceTimeExpr occ
    override_start_utc := newStartUTC
    override_duration_minutes := max newDurationMinutes 15
    override_title := occ.title
    override_link := occ.link
    override_notes := occ.notes
    override_location := some occ.location
    override_host := some occ.host
    override_event_type := occ.event_type }

/-- Embedding of the overrideData object built by handleMouseUp in
CalendarWeek.tsx on drop: copies title, link and notes and keeps the
duration. -/
def handleMouseUpOverride (occ : OccurrenceR) (newUtcTime : String) : OverrideRequest :=
  { occurrence_start_utc := originalOccurrenceTimeExpr occ
    override_start_utc := newUtcTime
    override_duration_minutes := occ.duration_minutes
    override_title := occ.title
    override_link := occ.link
    override_notes := occ.notes
    override_location := none
    override_host := none
    override_event_type := none }

/-- Embedding of the key sent by handleDelete (EventModal.tsx) in single
mode to deleteOccurrence: the occurrence_start_utc field of the occurrence,
taken directly, with no fallback to the original instant. -/
def handleDeleteOccurrenceKey (occ : OccurrenceR) : String :=
  occ.occurrence_start_utc

/-- Embedding of deleteOccurrence (api/client.ts): the DELETE request query
parameters, carrying the key it was handed. -/
def deleteOccurrenceParams (occurrenceStartUTC : String) : List (String × String) :=
  [(("occurrence_start_utc"), occurrenceStartUTC)]

/-- Embedding of the query parameter object built by fetchOccurrences
(api/client.ts): start and end always; tz only when the optional timezone
argument is truthy (a supplied empty string is falsy in JavaScript and is
dropped). -/
def fetchOccurrencesParams (startISO endISO : String) (timezone : Option String) :
    List (String × String) :=
  [(("start"), startISO), (("end"), endISO)] ++
    (match timezone with
      | some tz => if tz == "" then [] else [(("tz"), tz)]
      | none => [])

/-- Whether a query parameter list carries a parameter with the given key. -/
def hasParam (ps : List (String × String)) (k : String) : Bool :=
  ps.any (fun p => p.1 == k)

/-- Modelled from the spec: the server-side localStart annotation of the
Materializer (spec section 4.4, not under src): if a display timezone is
supplied with the request, each Occurrence is additionally annotated with a
local-time-formatted start; the local reading is the wall clock of the
resolved start in that zone. -/
def annotateLocalStart (tz : Option Zone) (resolvedStartUTC : Int) : Option Int :=
  tz.map (fun z => wall z resolvedStartUTC)

/-- Embedding of the calendar slice state (CalendarState in the types
section); the occurrences cache keyed by a cache-key string is an
association list, the empty object is the empty list. -/
structure CalendarStateM where
  selectedWeekStartISO : String
  timezone : String
  occurrences : List (String × List OccurrenceR)
  loading : Bool
  error : Option String
deriving Repr, DecidableEq

/-- Embedding of the setTimezone reducer of the calendar slice
(src/unnamed/part_001): sets the timezone to the payload and clears the
occurrences cache, touching nothing else. -/
def setTimezoneReducer (s : CalendarStateM) (payload : String) : CalendarStateM :=
  { s with timezone := payload, occurrences := [] }

/-!
The Exception Resolver (spec section 4.2). The backend that implements it
is not part of src (only the frontend is), so it is modelled from the spec.
Candidate instants are integers (UTC ms) as in the time model.
-/

/-- Modelled from the spec: the EventSeries base fields the Resolver reads
when an occurrence inherits from the series (spec section 3). -/
structure SeriesM where
  title : String
  duration_minutes : Int
deriving Repr, DecidableEq

/-- Modelled from the spec: an EventException record (spec section 3):
matching key, deleted flag, independently nullable override fields, and the
creation timestamp used by the duplicate policy. -/
structure ExceptionM where
  occurrence_start_utc : Int
  deleted : Bool
  override_start_utc : Option Int
  override_duration_minutes : Option Int
  override_title : Option String
  created_at : Int
deriving Repr, DecidableEq

/-- Modelled from the spec: a resolved Occurrence as output by the Resolver
(spec section 3): original and resolved start, inherited or overridden
fields, and the is_exception flag. -/
structure ResolvedOcc where
  original_start : Int
  resolved_start : Int
  title : String
  duration_minutes : Int
  is_exception : Bool
deriving Repr, DecidableEq

/-- Modelled from the spec: the Resolver lookup from occurrence_start_utc
to exception, one per key; on duplicate keys the most recently created
wins (spec section 4.2). -/
def findException (c : Int) (excs : List ExceptionM) : Option ExceptionM :=
  (excs.filter (fun e => e.occurrence_start_utc = c)).foldl
    (fun acc e =>
      match acc with
      | none => some e
      | some a => if a.created_at ≤ e.created_at then some e else some a)
    none

/-- Modelled from the spec: the Exception Resolver (spec section 4.2). For
each candidate instant in order: no matching exception gives the base
occurrence; a matching deleted exception omits the candidate entirely; a
matching live exception overrides exactly the set fields, with original
start the candidate and resolved start the override start if set. -/
def resolve (s : SeriesM) (cands : List Int) (excs : List ExceptionM) : List ResolvedOcc :=
  cands.filterMap (fun c =>
    match findException c excs with
    | none =>
        some { original_start := c
               resolved_start := c
               title := s.title
               duration_minutes := s.duration_minutes
               is_exception := false }
    | some e =>
        if e.deleted then none
        else
          some { original_start := c
                 resolved_start := e.override_start_utc.getD c
                 title := e.override_title.getD s.title
                 duration_minutes := e.override_duration_minutes.getD s.duration_minutes
                 is_exception := true })

/-- The two-occurrence deletion scenario of spec section 8: a WEEKLY series
starting 2024-01-01T09:00Z, window of two candidates, with the second
candidate 2024-01-08T09:00Z carrying a deleted exception. Instants are UTC
epoch milliseconds. -/
def demoSeries : SeriesM := { title := ("Standup"), duration_minutes := 30 }

def demoCand0 : Int := 1704099600000

def demoCand1 : Int := 1704704400000

def demoDeletedExc : ExceptionM :=
  { occurrence_start_utc := demoCand1
    deleted := true
    override_start_utc := none
    override_duration_minutes := none
    override_title := none
    created_at := 0 }

/-- A concrete edit form used by witnesses. -/
def demoForm : EventForm :=
  { title := ("Weekly sync")
    duration := JsVal.int 45
    link := ""
    notes := ""
    location := ("Room 1")
    frequency := Freq.WEEKLY
    eventType := EType.Meeting
    selectedHost := ("Jane Smith") }

/-- The demo form with a negative duration value in the field. -/
def negDurationForm : EventForm := { demoForm with duration := JsVal.int (-5) }

/-- A concrete occurrence that is an exception whose start was moved: the
resolved start differs from the recorded original instant. -/
def movedExceptionOcc : OccurrenceR :=
  { series_id := 1
    occurrence_start_utc := ("2024-01-08T10:00:00.000Z")
    original_occurrence_start_utc := some ("2024-01-08T09:00:00.000Z")
    duration_minutes := 30
    title := ("Standup")
    link := ""
    notes := ""
    location := ""
    host := ""
    event_type := none
    is_exception := true
    frequency := Freq.WEEKLY }

/-- A fixed-offset zone at UTC, used by concrete instances. -/
def zone0 : Zone := { offset := fun _ => 0 }

/-- A zone with a spring-forward transition 30 minutes before the wall
reading 604800000 (the Monday 00:00 one week after the epoch-scale origin):
offsets jump from 0 to one hour at instant 603000000, so the local times in
[603000000, 606600000) do not exist. A real realization is Asia/Tehran,
whose DST began at 00:00 local on Monday 2016-03-21, a week start that did
not exist on the local clock. -/
def gapZone : Zone := { offset := fun u => if u < 603000000 then 0 else 3600000 }

/-- A wall clock reading that is a Monday 00:00:00.000: a whole number of
days since the epoch, landing on a weekday index congruent to Monday (the
epoch day, 1970-01-01, is a Thursday, three days past a Monday). -/
def isMondayMidnightWall (m : Int) : Prop :=
  m % msPerDay = 0 ∧ (m / msPerDay + 3) % 7 = 0

/-!
Helper lemmas.
-/

lemma originalOccurrenceTimeExpr_eq (occ : OccurrenceR)
    (h : occ.original_occurrence_start_utc ≠ some "") :
    originalOccurrenceTimeExpr occ = originalUnoverriddenInstant occ := by
  unfold originalOccurrenceTimeExpr originalUnoverriddenInstant jsTruthy
  cases hoo : occ.original_occurrence_start_utc with
  | none => cases occ.is_exception <;> simp
  | some s =>
    have hs : ¬ s = "" := by
      intro hc
      exact h (by rw [hoo, hc])
    cases occ.is_exception <;> simp [hs]

lemma originalOccurrenceTimeExpr_of_exception (occ : OccurrenceR) (k : String)
    (h1 : occ.is_exception = true) (h2 : occ.original_occurrence_start_utc = some k)
    (h3 : k ≠ "") :
    originalOccurrenceTimeExpr occ = k := by
  unfold originalOccurrenceTimeExpr jsTruthy
  rw [h1, h2]
  simp [h3]

lemma fixOffset_simple (z : Zone) (L o : Int) (h : z.offset (L - o) = o) :
    fixOffset z L o = L - o := by
  simp [fixOffset, h]

lemma fixOffset_eq (z : Zone) (L o : Int)
    (h : z.offset (L - z.offset (L - o)) = z.offset (L - o)) :
    fixOffset z L o = L - z.offset (L - o) := by
  unfold fixOffset
  by_cases h1 : z.offset (L - o) = o
  · rw [if_pos h1, h1]
  · rw [if_neg h1, if_pos h]

lemma plusDays_const (z : Zone) (t n : Int) (h : z.offset (t + n * msPerDay) = z.offset t) :
    plusDays z t n = t + n * msPerDay := by
  unfold plusDays wall
  have e : t + z.offset t + n * msPerDay - z.offset t = t + n * msPerDay := by ring
  rw [fixOffset_simple z _ _ (by rw [e, h]), e]

lemma startOfWeek_const (z : Zone) (t : Int)
    (h : z.offset (mondayWall (wall z t) - z.offset t) = z.offset t) :
    getWeekStart z t = mondayWall (wall z t) - z.offset t := by
  unfold getWeekStart
  exact fixOffset_simple z _ _ h

lemma startOfDay_const (z : Zone) (t : Int)
    (h : z.offset (dayStartWall (wall z t) - z.offset t) = z.offset t) :
    startOfDay z t = dayStartWall (wall z t) - z.offset t := by
  unfold startOfDay
  exact fixOffset_simple z _ _ h

lemma mondayWall_le (w : Int) : mondayWall w ≤ w := by
  unfold mondayWall dayIndex msPerDay
  omega

lemma lt_mondayWall_add_week (w : Int) : w < mondayWall w + msPerWeek := by
  unfold mondayWall dayIndex msPerDay msPerWeek
  omega

lemma mondayWall_add_week (w : Int) : mondayWall (w + msPerWeek) = mondayWall w + msPerWeek := by
  unfold mondayWall dayIndex msPerDay msPerWeek
  omega

lemma mondayWall_isMondayMidnight (w : Int) : isMondayMidnightWall (mondayWall w) := by
  unfold isMondayMidnightWall mondayWall dayIndex msPerDay
  omega

lemma dayStartWall_of_aligned (m : Int) (h : m % msPerDay = 0) :
    dayStartWall (m + msPerWeek) = m + msPerWeek := by
  unfold dayStartWall dayIndex msPerWeek
  unfold msPerDay at h ⊢
  omega

lemma plusDays_roundtrip (z : Zone) (t k : Int)
    (h1 : z.offset (wall z t + k * msPerDay - z.offset (t + k * msPerDay)) =
      z.offset (t + k * msPerDay))
    (h2 : z.offset (wall z t - z.offset (t + k * msPerDay)) = z.offset t) :
    plusDays z (plusDays z t k) (-k) = t := by
  have e1 : wall z t + k * msPerDay - z.offset t = t + k * msPerDay := by
    unfold wall
    ring
  have hp : plusDays z t k = wall z t + k * msPerDay - z.offset (t + k * msPerDay) := by
    unfold plusDays
    rw [fixOffset_eq z _ _ (by rw [e1]; exact h1), e1]
  rw [hp]
  unfold plusDays
  have e2 : wall z (wall z t + k * msPerDay - z.offset (t + k * msPerDay)) + -k * msPerDay
      = wall z t := by
    show (wall z t + k * msPerDay - z.offset (t + k * msPerDay)) +
        z.offset (wall z t + k * msPerDay - z.offset (t + k * msPerDay)) + -k * msPerDay
      = wall z t
    rw [h1]
    ring
  rw [e2, h1]
  have e3 : wall z t - z.offset t = t := by
    unfold wall
    ring
  rw [fixOffset_eq z _ _ (by rw [h2, e3]), h2, e3]

/-!
Claim theorems.
-/

/-- C1: every single-occurrence edit site (the handleSave single-update
path of EventModal.tsx, handleEventDrop of the BigCalendar component and
handleMouseUp of CalendarWeek.tsx) keys its exception upsert by the
original un-overridden instant of the occurrence: the recorded
original_occurrence_start_utc when the occurrence is already a moved
exception, otherwise its occurrence_start_utc. Consequently an occurrence
refetched after an upsert keyed by k (an exception carrying original start
k) is keyed by the same k on every later edit. -/
theorem exception_upsert_key_is_original_instant
    (occ : OccurrenceR) (form : EventForm) (uts nsu nut : String) (nd : Int)
    (h : occ.original_occurrence_start_utc ≠ some "") :
    (handleSaveSingleOverride occ form uts).occurrence_start_utc =
      originalUnoverriddenInstant occ ∧
    (handleEventDropOverride occ nsu nd).occurrence_start_utc =
      originalUnoverriddenInstant occ ∧
    (handleMouseUpOverride occ nut).occurrence_start_utc =
      originalUnoverriddenInstant occ ∧
    (∀ occ2 : OccurrenceR, ∀ k : String, occ2.is_exception = true →
      occ2.original_occurrence_start_utc = some k → k ≠ "" →
      (handleSaveSingleOverride occ2 form uts).occurrence_start_utc = k ∧
      (handleEventDropOverride occ2 nsu nd).occurrence_start_utc = k ∧
      (handleMouseUpOverride occ2 nut).occurrence_start_utc = k) := by
  refine ⟨originalOccurrenceTimeExpr_eq occ h, originalOccurrenceTimeExpr_eq occ h,
    originalOccurrenceTimeExpr_eq occ h, ?_⟩
  intro occ2 k h1 h2 h3
  exact ⟨originalOccurrenceTimeExpr_of_exception occ2 k h1 h2 h3,
    originalOccurrenceTimeExpr_of_exception occ2 k h1 h2 h3,
    originalOccurrenceTimeExpr_of_exception occ2 k h1 h2 h3⟩

/-- C1 witness: the theorem applied to the concrete moved exception. -/
theorem exception_upsert_key_is_original_instant_witness :
    movedExceptionOcc.original_occurrence_start_utc ≠ some "" ∧
    (handleSaveSingleOverride movedExceptionOcc demoForm ("2024-01-08T11:00:00.000Z")
      ).occurrence_start_utc = originalUnoverriddenInstant movedExceptionOcc :=
  ⟨by decide,
    (exception_upsert_key_is_original_instant movedExceptionOcc demoForm
      ("2024-01-08T11:00:00.000Z") ("2024-01-08T11:00:00.000Z")
      ("2024-01-08T11:00:00.000Z") 30 (by decide)).1⟩

/-- C2: handleDelete of EventModal.tsx, in single mode, sends the RESOLVED
occurrence_start_utc of the occurrence rather than its original
un-overridden instant; for a moved exception the two differ, so the delete
request does not target the exception matching key. This evaluates the code
at the failing input of the claim. -/
theorem handleDelete_key_ignores_original_instant :
    handleDeleteOccurrenceKey movedExceptionOcc = ("2024-01-08T10:00:00.000Z") ∧
    originalUnoverriddenInstant movedExceptionOcc = ("2024-01-08T09:00:00.000Z") ∧
    handleDeleteOccurrenceKey movedExceptionOcc ≠
      originalUnoverriddenInstant movedExceptionOcc ∧
    deleteOccurrenceParams (handleDeleteOccurrenceKey movedExceptionOcc) =
      [(("occurrence_start_utc"), ("2024-01-08T10:00:00.000Z"))] := by
  refine ⟨rfl, rfl, ?_, rfl⟩
  decide

/-- C3: a candidate instant whose matching exception is deleted never
appears among the original starts of the Resolver output; in particular the
two-candidate deletion scenario of spec section 8 yields exactly the one
remaining base occurrence. -/
theorem resolver_omits_deleted_occurrences (s : SeriesM) (cands : List Int)
    (excs : List ExceptionM) (c : Int) (e : ExceptionM)
    (h1 : findException c excs = some e) (h2 : e.deleted = true) :
    c ∉ (resolve s cands excs).map ResolvedOcc.original_start ∧
    resolve demoSeries [demoCand0, demoCand1] [demoDeletedExc] =
      [{ original_start := demoCand0
         resolved_start := demoCand0
         title := demoSeries.title
         duration_minutes := demoSeries.duration_minutes
         is_exception := false }] := by
  constructor
  · intro hmem
    rw [List.mem_map] at hmem
    obtain ⟨r, hr, hro⟩ := hmem
    rw [resolve, List.mem_filterMap] at hr
    obtain ⟨a, ha, hfa⟩ := hr
    have hac : r.original_start = a := by
      cases hf : findException a excs with
      | none =>
        simp only [resolve, hf] at hfa
        cases hfa
        rfl
      | some e2 =>
        by_cases hd : e2.deleted
        · simp [hf, hd] at hfa
        · simp only [resolve, hf, if_neg hd] at hfa
          cases hfa
          rfl
    have hca : a = c := by rw [← hac, hro]
    rw [hca, h1] at hfa
    simp [h2] at hfa
  · decide

/-- C3 witness: the theorem applied to the concrete deletion scenario. -/
theorem resolver_omits_deleted_occurrences_witness :
    findException demoCand1 [demoDeletedExc] = some demoDeletedExc ∧
    demoDeletedExc.deleted = true ∧
    demoCand1 ∉
      (resolve demoSeries [demoCand0, demoCand1] [demoDeletedExc]).map
        ResolvedOcc.original_start :=
  ⟨by decide, rfl,
    (resolver_omits_deleted_occurrences demoSeries [demoCand0, demoCand1]
      [demoDeletedExc] demoCand1 demoDeletedExc (by decide) rfl).1⟩

/-- C5: the UTC to local and local to UTC conversions preserve the denoted
instant exactly, in both orders, for every instant and zone: setZone and
toUTC act only on the display zone, so no wall-clock reconstruction is
involved and the round trip is the identity (in particular on instants
outside spring-forward gaps, as claimed). -/
theorem utc_local_roundtrip_identity (s : Int) (tz : Zone) (dt : DateTimeM) :
    localToUTC (utcToLocal s tz) = s ∧ utcToLocal (localToUTC dt) dt.zone = dt := by
  refine ⟨rfl, ?_⟩
  cases dt
  rfl

/-- C6: the create-mode series request of handleSave has interval 2 exactly
when the chosen frequency is FORTNIGHTLY, and interval 1 for every other
frequency. -/
theorem create_interval_two_iff_fortnightly (form : EventForm) (uts : String) :
    ((handleSaveCreateSeries form uts).interval = 2 ↔
      form.frequency = Freq.FORTNIGHTLY) ∧
    (form.frequency ≠ Freq.FORTNIGHTLY → (handleSaveCreateSeries form uts).interval = 1) := by
  by_cases hf : form.frequency = Freq.FORTNIGHTLY <;>
    simp [handleSaveCreateSeries, hf]

/-- C6 witness: the theorem applied to the concrete weekly form. -/
theorem create_interval_two_iff_fortnightly_witness :
    ((handleSaveCreateSeries demoForm ("2024-01-01T09:00:00.000Z")).interval = 2 ↔
      demoForm.frequency = Freq.FORTNIGHTLY) ∧
    (demoForm.frequency ≠ Freq.FORTNIGHTLY →
      (handleSaveCreateSeries demoForm ("2024-01-01T09:00:00.000Z")).interval = 1) :=
  create_interval_two_iff_fortnightly demoForm ("2024-01-01T09:00:00.000Z")

/-- C7 counterexample: a negative duration field value reaching handleSave
is sent unchanged, so the constructed duration_minutes is not strictly
positive, refuting the claim for negative input. -/
theorem negative_duration_passes_through :
    (handleSaveCreateSeries negDurationForm ("2024-01-01T09:00:00.000Z")).duration_minutes
        = -5 ∧
    ¬ (0 <
      (handleSaveCreateSeries negDurationForm ("2024-01-01T09:00:00.000Z")).duration_minutes) := by
  decide

/-- C7 amended: empty, zero and non-numeric values are mapped to 30 by the
Number(duration) fallback of handleSave, and every value that has passed
the onBlur normalization of the duration field yields a strictly positive
duration_minutes; only a negative value that bypasses the blur handler is
sent unchanged. -/
theorem duration_positive_after_blur (v : JsVal) :
    0 < durationOr30 (durationOnBlur v) ∧
    durationOr30 JsVal.nan = 30 ∧ durationOr30 (JsVal.int 0) = 30 := by
  refine ⟨?_, rfl, by decide⟩
  cases v with
  | nan => decide
  | int n =>
    by_cases hn : n < 1
    · simp [durationOnBlur, durationOr30, hn]
    · have h0 : ¬ n = 0 := by omega
      simp [durationOnBlur, durationOr30, hn, h0]
      omega

/-- C4 counterexample: getWeekInfo does not snap its weekStartISO argument
to the Monday of its week; for a Wednesday-noon input (1970-01-07T12:00Z,
zone UTC) its weekStart is the input itself, while getWeekStart of the same
date is the Monday 1970-01-05T00:00Z, so the pair handed to the occurrences
fetch is not the getWeekStart/getWeekEnd pair for every date. -/
theorem getWeekInfo_not_snapped_counterexample :
    (getWeekInfo zone0 561600000).weekStart = 561600000 ∧
    getWeekStart zone0 561600000 = 345600000 ∧
    (getWeekInfo zone0 561600000).weekStart ≠ getWeekStart zone0 561600000 := by
  decide

/-- C4 amended: when the zone offset is constant on the two weeks around
the date (no DST transition in the span, in particular no spring-forward
gap at the Monday midnight involved), getWeekStart lands on the wall
reading Monday 00:00:00.000 of the week of the date in the caller zone and
getWeekEnd on the following Sunday 23:59:59.999; and getWeekInfo hands out
exactly these two instants precisely when its weekStartISO argument already
IS a Monday 00:00 in that zone (which the navigation flow maintains) — it
performs no snapping of its own. -/
theorem week_boundaries_localized (z : Zone) (t : Int)
    (Hc : ∀ u : Int, t - 2 * msPerWeek ≤ u → u ≤ t + 2 * msPerWeek →
      z.offset u = z.offset t) :
    wall z (getWeekStart z t) = mondayWall (wall z t) ∧
    isMondayMidnightWall (mondayWall (wall z t)) ∧
    wall z (getWeekEnd z t) = mondayWall (wall z t) + msPerWeek - 1 ∧
    (wall z t = mondayWall (wall z t) →
      (getWeekInfo z t).weekStart = getWeekStart z t ∧
      (getWeekInfo z t).weekEnd = getWeekEnd z t) := by
  have hD : msPerDay = 86400000 := rfl
  have hW : msPerWeek = 604800000 := rfl
  have hwt : wall z t = t + z.offset t := rfl
  have hMle : mondayWall (wall z t) ≤ wall z t := mondayWall_le _
  have hMgt : wall z t < mondayWall (wall z t) + msPerWeek := lt_mondayWall_add_week _
  have o1 : z.offset (mondayWall (wall z t) - z.offset t) = z.offset t :=
    Hc _ (by omega) (by omega)
  have hgws : getWeekStart z t = mondayWall (wall z t) - z.offset t :=
    startOfWeek_const z t o1
  have wgws : wall z (getWeekStart z t) = mondayWall (wall z t) := by
    rw [hgws]
    show mondayWall (wall z t) - z.offset t +
      z.offset (mondayWall (wall z t) - z.offset t) = mondayWall (wall z t)
    rw [o1]
    ring
  have o2 : z.offset (t + 7 * msPerDay) = z.offset t := Hc _ (by omega) (by omega)
  have hp7 : plusDays z t 7 = t + 7 * msPerDay := plusDays_const z t 7 o2
  have ww7 : wall z (t + 7 * msPerDay) = wall z t + msPerWeek := by
    show t + 7 * msPerDay + z.offset (t + 7 * msPerDay) = wall z t + msPerWeek
    rw [o2]
    omega
  have hm7 : mondayWall (wall z (t + 7 * msPerDay)) = mondayWall (wall z t) + msPerWeek := by
    rw [ww7, mondayWall_add_week]
  have o3 : z.offset (mondayWall (wall z t) + msPerWeek - z.offset t) = z.offset t :=
    Hc _ (by omega) (by omega)
  have hgws7 : getWeekStart z (t + 7 * msPerDay) =
      mondayWall (wall z (t + 7 * msPerDay)) - z.offset (t + 7 * msPerDay) :=
    startOfWeek_const z _ (by rw [hm7, o2]; exact o3)
  have hgwe : getWeekEnd z t = mondayWall (wall z t) + msPerWeek - z.offset t - 1 := by
    unfold getWeekEnd
    rw [hp7, hgws7, hm7, o2]
  have o4 : z.offset (mondayWall (wall z t) + msPerWeek - z.offset t - 1) = z.offset t :=
    Hc _ (by omega) (by omega)
  have wgwe : wall z (getWeekEnd z t) = mondayWall (wall z t) + msPerWeek - 1 := by
    rw [hgwe]
    show mondayWall (wall z t) + msPerWeek - z.offset t - 1 +
      z.offset (mondayWall (wall z t) + msPerWeek - z.offset t - 1)
      = mondayWall (wall z t) + msPerWeek - 1
    rw [o4]
    ring
  refine ⟨wgws, mondayWall_isMondayMidnight _, wgwe, ?_⟩
  intro hMon
  constructor
  · show t = getWeekStart z t
    rw [hgws]
    omega
  · have o5 : z.offset (t + 6 * msPerDay) = z.offset t := Hc _ (by omega) (by omega)
    have hp6 : plusDays z t 6 = t + 6 * msPerDay := plusDays_const z t 6 o5
    have o6a : z.offset (t + 6 * msPerDay + 1 * msPerDay) = z.offset t :=
      Hc _ (by omega) (by omega)
    have hp1 : plusDays z (t + 6 * msPerDay) 1 = t + 6 * msPerDay + 1 * msPerDay :=
      plusDays_const z _ 1 (by rw [o6a, o5])
    have e71 : t + 6 * msPerDay + 1 * msPerDay = t + 7 * msPerDay := by ring
    have halign : mondayWall (wall z t) % msPerDay = 0 :=
      (mondayWall_isMondayMidnight (wall z t)).1
    have hds : dayStartWall (mondayWall (wall z t) + msPerWeek) =
        mondayWall (wall z t) + msPerWeek := dayStartWall_of_aligned _ halign
    have ww7m : wall z (t + 7 * msPerDay) = mondayWall (wall z t) + msPerWeek := by
      rw [ww7]
      omega
    have hsod : startOfDay z (t + 7 * msPerDay) =
        dayStartWall (wall z (t + 7 * msPerDay)) - z.offset (t + 7 * msPerDay) :=
      startOfDay_const z _ (by rw [ww7m, hds, o2]; exact o3)
    have hwe : (getWeekInfo z t).weekEnd =
        mondayWall (wall z t) + msPerWeek - z.offset t - 1 := by
      show endOfDay z (plusDays z t 6) = _
      rw [hp6]
      unfold endOfDay
      rw [hp1, e71, hsod, ww7m, hds, o2]
    rw [hgwe, hwe]

/-- C4 witness: the amended theorem applied at the UTC zone and the Monday
1970-01-05T00:00Z, whose constancy hypothesis holds by reflexivity. -/
theorem week_boundaries_localized_witness :
    (∀ u : Int, 345600000 - 2 * msPerWeek ≤ u → u ≤ 345600000 + 2 * msPerWeek →
      zone0.offset u = zone0.offset 345600000) ∧
    (wall zone0 (getWeekStart zone0 345600000) = mondayWall (wall zone0 345600000) ∧
      isMondayMidnightWall (mondayWall (wall zone0 345600000)) ∧
      wall zone0 (getWeekEnd zone0 345600000) =
        mondayWall (wall zone0 345600000) + msPerWeek - 1 ∧
      (wall zone0 345600000 = mondayWall (wall zone0 345600000) →
        (getWeekInfo zone0 345600000).weekStart = getWeekStart zone0 345600000 ∧
        (getWeekInfo zone0 345600000).weekEnd = getWeekEnd zone0 345600000)) :=
  ⟨fun _ _ _ => rfl, week_boundaries_localized zone0 345600000 (fun _ _ _ => rfl)⟩

/-- C8 counterexample: a supplied but empty timezone argument is falsy in
JavaScript, so fetchOccurrences drops the tz query parameter even though a
timezone argument was supplied, refuting the stated iff. -/
theorem tz_param_dropped_for_empty_string :
    hasParam (fetchOccurrencesParams ("2024-01-01") ("2024-01-08") (some (""))) ("tz")
        = false ∧
    (some ("") : Option String).isSome = true := by
  decide

/-- C8 amended: the tz query parameter is present exactly when a NON-EMPTY
timezone argument is supplied (JavaScript truthiness); and, modelled from
the spec, the localStart annotation of an Occurrence is present exactly
when the request carried a tz. -/
theorem tz_param_iff_truthy_timezone (s e : String) (tzArg : Option String)
    (tz : Option Zone) (r : Int) :
    hasParam (fetchOccurrencesParams s e tzArg) ("tz") = jsTruthy tzArg ∧
    (annotateLocalStart tz r).isSome = tz.isSome := by
  constructor
  · cases tzArg with
    | none => simp [fetchOccurrencesParams, hasParam, jsTruthy]
    | some tzv =>
      cases htz : tzv == "" with
      | true => simp [fetchOccurrencesParams, hasParam, jsTruthy, htz]
      | false => simp [fetchOccurrencesParams, hasParam, jsTruthy, htz]
  · cases tz <;> rfl

/-- C9: the setTimezone reducer sets the timezone to the payload, empties
the occurrences cache, and leaves the selected week, the loading flag and
the error untouched. -/
theorem setTimezone_clears_cache_only (s : CalendarStateM) (p : String) :
    (setTimezoneReducer s p).timezone = p ∧
    (setTimezoneReducer s p).occurrences = [] ∧
    (setTimezoneReducer s p).selectedWeekStartISO = s.selectedWeekStartISO ∧
    (setTimezoneReducer s p).loading = s.loading ∧
    (setTimezoneReducer s p).error = s.error :=
  ⟨rfl, rfl, rfl, rfl, rfl⟩

/-- C10 counterexample: in a zone with a spring-forward gap covering the
target Monday midnight (gapZone; realized in the IANA database by
Asia/Tehran around 2016-03-21), navigating one week forward from the valid
week start at instant 0 and then one week back yields instant 3600000, one
hour later — not the identity — because the nonexistent local Monday 00:00
is pushed past the gap on the way out. -/
theorem navigateWeek_roundtrip_gap_counterexample :
    navigateWeek gapZone (navigateWeek gapZone 0 Dir.next) Dir.prev = 3600000 ∧
    navigateWeek gapZone (navigateWeek gapZone 0 Dir.next) Dir.prev ≠ 0 := by
  decide

/-- C10 amended: navigating one week forward then one week back (and
symmetrically back then forward) is the identity on the week start instant
whenever the Luxon offset resolution is clean in both hops: the offset at
the naive one-week target is a fixed point of the re-probe (no
spring-forward gap there) and probing the departure wall reading with the
arrival offset recovers the departure offset (no fall-back ambiguity at the
origin). These hypotheses hold for every real zone whose transitions do not
touch the two Monday midnights involved, including ordinary DST weeks. -/
theorem navigateWeek_roundtrip_no_dst_shift (z : Zone) (t : Int)
    (hn1 : z.offset (wall z t + 7 * msPerDay - z.offset (t + 7 * msPerDay)) =
      z.offset (t + 7 * msPerDay))
    (hn2 : z.offset (wall z t - z.offset (t + 7 * msPerDay)) = z.offset t)
    (hp1 : z.offset (wall z t + -7 * msPerDay - z.offset (t + -7 * msPerDay)) =
      z.offset (t + -7 * msPerDay))
    (hp2 : z.offset (wall z t - z.offset (t + -7 * msPerDay)) = z.offset t) :
    navigateWeek z (navigateWeek z t Dir.next) Dir.prev = t ∧
    navigateWeek z (navigateWeek z t Dir.prev) Dir.next = t := by
  constructor
  · show plusDays z (plusDays z t 7) (-7) = t
    exact plusDays_roundtrip z t 7 hn1 hn2
  · show plusDays z (plusDays z t (-7)) 7 = t
    have h := plusDays_roundtrip z t (-7) hp1 hp2
    have e : (-(-7) : Int) = 7 := by norm_num
    rw [e] at h
    exact h

/-- C10 witness: the amended theorem applied at the UTC zone and instant 0,
whose four hypotheses hold by reflexivity. -/
theorem navigateWeek_roundtrip_no_dst_shift_witness :
    navigateWeek zone0 (navigateWeek zone0 0 Dir.next) Dir.prev = 0 ∧
    navigateWeek zone0 (navigateWeek zone0 0 Dir.prev) Dir.next = 0 :=
  navigateWeek_roundtrip_no_dst_shift zone0 0 rfl rfl rfl rfl

end OwnersSchedule
